import Mathlib

/-!
Shallow embedding of the `mysql-mcp` server (`src/main.go`) and proofs about
its tool handlers, query classifier, result projection, self-update check and
binary extraction.

Conventions of the embedding:
* The process-wide `db *sql.DB` handle is an explicit `Option Conn` value
  threaded through the handlers (`Conn` is an opaque handle identifier).
* Every interaction with the SQL driver is abstracted as an explicit driver
  response passed to the handler (`RowsDriver`, `SelectDriver`, `ExecDriver`,
  `ConnectDriver`): the handler's control flow on those responses is a direct
  translation of the Go code.
* Each handler returns the Go triple `(*mcp.CallToolResult, any, error)`
  as `CallToolResult × Option Payload`, together with the list of database
  operations it issued (`List DBOp`) so that "without touching the database"
  is a provable statement.  The Go `error` component is always `nil` in the
  source and is omitted.
* Driver-level scalar values (`any` in Go) are a tagged variant `Value`
  (null, string, byte sequence, integer, boolean); a byte sequence carries
  the string it decodes to, matching Go's `string(b)` conversion.
* `strings.ToUpper` / `strings.TrimSpace` / `strings.HasPrefix` are modelled
  on the character level (`toUpperStr`, `trimSpace`, `leadsList`); the ASCII
  keyword prefix tests of the classifier coincide with Go's byte-level tests.
-/

/-- Left-justified padding to width `w` with spaces, Go's `%-Nv` / `%-Ns`
(no truncation when the string is longer than the width). -/
def padTo (s : String) (w : Nat) : String :=
  s ++ String.mk (List.replicate (w - s.length) ' ')

/-- Join with a separator between consecutive elements, the shape produced by
Go's `for i, c := range l { out += c; if i < len(l)-1 { out += sep } }`. -/
def joinSep (sep : String) : List String → String
  | [] => ""
  | [x] => x
  | x :: y :: ys => x ++ sep ++ joinSep sep (y :: ys)

/-- Concatenation of a list of strings, Go's `for _, x := range l { out += x }`. -/
def concatAll : List String → String
  | [] => ""
  | x :: xs => x ++ concatAll xs

/-- Character-list version of `strings.HasPrefix`. -/
def leadsList : List Char → List Char → Bool
  | [], _ => true
  | _ :: _, [] => false
  | a :: as, b :: bs => a == b && leadsList as bs

/-- Does `pat` occur as a contiguous run inside `l`? -/
def hasRun (pat : List Char) : List Char → Bool
  | [] => pat.isEmpty
  | c :: rest => leadsList pat (c :: rest) || hasRun pat rest

/-- `pat` occurs as a contiguous substring of `s`. -/
def containsStr (s pat : String) : Prop := hasRun pat.data s.data = true

instance (s pat : String) : Decidable (containsStr s pat) := by
  unfold containsStr; infer_instance

/-- The character classes stripped by Go's `strings.TrimSpace`
(`unicode.IsSpace` in the Latin-1 range). -/
def isGoSpace (c : Char) : Bool :=
  c = ' ' || c = '\t' || c = '\n' || c.toNat = 11 || c.toNat = 12 ||
  c = '\r' || c.toNat = 0x85 || c.toNat = 0xA0

/-- Drop trailing characters satisfying `p`. -/
def dropTrailing (p : Char → Bool) (l : List Char) : List Char :=
  (l.reverse.dropWhile p).reverse

/-- Model of Go's `strings.TrimSpace`. -/
def trimSpace (s : String) : String :=
  String.mk (dropTrailing isGoSpace (s.data.dropWhile isGoSpace))

/-- ASCII uppercase of one character (the fragment of `strings.ToUpper`
relevant to the ASCII SQL keywords the classifier tests for). -/
def upperChar (c : Char) : Char :=
  if 'a' ≤ c ∧ c ≤ 'z' then Char.ofNat (c.toNat - 32) else c

/-- Model of Go's `strings.ToUpper`. -/
def toUpperStr (s : String) : String := String.mk (s.data.map upperChar)

/-- Driver-level scalar value: the dynamic `any` scanned from a result row.
A byte sequence (`[]byte`) carries the string it decodes to. -/
inductive Value where
  | null
  | str (s : String)
  | bytes (s : String)
  | int (n : Int)
  | bool (b : Bool)
deriving DecidableEq, Repr

/-- A result row as built by `executeSelectQuery`: a Go `map[string]any`,
modelled as an association list in insertion order. -/
abbrev RowMap := List (String × Value)

/-- The normalization applied per cell in `executeSelectQuery`:
`if b, ok := val.([]byte); ok { row[col] = string(b) } else { row[col] = val }`. -/
def normalizeValue : Value → Value
  | .bytes s => .str s
  | v => v

/-- Go map assignment `m[k] = v`: replace the binding if the key is present,
otherwise add it. -/
def mapSet (m : RowMap) (k : String) (v : Value) : RowMap :=
  if m.any (fun p => p.1 == k) then
    m.map (fun p => if p.1 == k then (k, v) else p)
  else m ++ [(k, v)]

/-- The per-row loop of `executeSelectQuery`: for each column (in column
order) store the normalized scanned value under the column name. -/
def buildRow (cols : List String) (vals : List Value) : RowMap :=
  (cols.zip vals).foldl (fun m cv => mapSet m cv.1 (normalizeValue cv.2)) []

/-- Go's `fmt` rendering (`%v`) of the scalar values that reach display code. -/
def displayValue : Value → String
  | .null => "NULL"
  | .str s => s
  | .bytes s => s
  | .int n => toString n
  | .bool b => toString b

/-- One display cell of the select result table: look the column up in the
row map (`nil` / missing renders as `NULL`) and pad to width 20 (`%-20v`). -/
def displayCell (r : RowMap) (c : String) : String :=
  padTo (displayValue ((r.lookup c).getD Value.null)) 20

/-- The `*mcp.CallToolResult` part of a tool response: error flag plus the
single text content the handlers always produce. -/
structure CallToolResult where
  isError : Bool
  text : String
deriving DecidableEq, Repr

/-- Opaque connection handle (stands for a `*sql.DB` pointer value). -/
abbrev Conn := Nat

/-- Structured payload of the read path: `{rows, rowCount, columns}`. -/
structure SelectPayload where
  rows : List RowMap
  rowCount : Nat
  columns : List String
deriving DecidableEq, Repr

/-- Structured payload of the mutating path: `{rowsAffected, lastInsertId}`. -/
structure ModifyPayload where
  rowsAffected : Int
  lastInsertId : Int
deriving DecidableEq, Repr

/-- `DatabaseInfo` record. -/
structure DatabaseInfo where
  name : String
deriving DecidableEq, Repr

/-- `TableInfo` record. -/
structure TableInfo where
  tableName : String
  tableType : String
  tableSchema : String
deriving DecidableEq, Repr

/-- `ColumnInfo` record (`column_default` is nullable). -/
structure ColumnInfo where
  columnName : String
  dataType : String
  isNullable : String
  columnDefault : Option String
  extra : String
deriving DecidableEq, Repr

/-- The `any` structured-payload slot of a tool response. -/
inductive Payload where
  | databases (l : List DatabaseInfo)
  | tables (l : List TableInfo)
  | columns (l : List ColumnInfo)
  | select (p : SelectPayload)
  | modify (p : ModifyPayload)
deriving DecidableEq, Repr

/-- One database operation issued through the stored handle. -/
inductive DBOp where
  | query (sql : String) (params : List String)
  | exec (sql : String)
deriving DecidableEq, Repr

/-- Parameters of the `connect` tool. -/
structure ConnectParams where
  dsn : String
deriving DecidableEq, Repr

/-- Parameters of the `list_tables` tool. -/
structure ListTablesParams where
  database : String
deriving DecidableEq, Repr

/-- Parameters of the `describe_table` tool. -/
structure DescribeTableParams where
  database : String
  table : String
deriving DecidableEq, Repr

/-- Parameters of the `execute_query` tool. -/
structure ExecuteQueryParams where
  query : String
deriving DecidableEq, Repr

/-- Outcome of `sql.Open` + `database.Ping()` inside `Connect`. -/
inductive ConnectDriver where
  | openFail (msg : String)
  | pingFail (conn : Conn) (msg : String)
  | ok (conn : Conn)
deriving DecidableEq, Repr

/-- Driver response for the three metadata handlers: the query can fail, a
row scan can fail, the final `rows.Err()` can fail, or all rows of type `α`
are delivered. -/
inductive RowsDriver (α : Type) where
  | queryFail (msg : String)
  | scanFail (msg : String)
  | iterFail (msg : String)
  | ok (rows : List α)
deriving DecidableEq, Repr

/-- Driver response for the read path of `execute_query` (an extra failure
point: `rows.Columns()`). Raw rows are the scanned values in column order. -/
inductive SelectDriver where
  | queryFail (msg : String)
  | columnsFail (msg : String)
  | scanFail (msg : String)
  | iterFail (msg : String)
  | ok (cols : List String) (rawRows : List (List Value))
deriving DecidableEq, Repr

/-- Driver response for the mutating path: outcome of `ExecContext`, of
`RowsAffected()` and of `LastInsertId()`. -/
structure ExecDriver where
  execRes : Except String Unit
  rowsAffectedRes : Except String Int
  lastInsertIdRes : Except String Int
deriving Repr

/-- The fixed response every handler other than `connect` returns when the
stored handle is nil. -/
def notConnectedResult : CallToolResult :=
  ⟨true, "Not connected to database. Use connect tool first."⟩

/-- `Connect`: open, ping, and only on full success store the new handle.
Returns (result, payload, new stored handle); the payload slot is always
`nil` in the source. -/
def Connect (st : Option Conn) : ConnectDriver →
    CallToolResult × Option Payload × Option Conn
  | .openFail msg =>
    (⟨true, "Failed to open database: " ++ msg⟩, none, st)
  | .pingFail _ msg =>
    (⟨true, "Failed to ping database: " ++ msg⟩, none, st)
  | .ok c =>
    (⟨false, "Successfully connected to MySQL database"⟩, none, some c)

/-- `ListDatabases`. -/
def ListDatabases (st : Option Conn) (drv : RowsDriver String) :
    CallToolResult × Option Payload × List DBOp :=
  match st with
  | none => (notConnectedResult, none, [])
  | some _ =>
    let op := DBOp.query "SHOW DATABASES" []
    match drv with
    | .queryFail msg => (⟨true, "Failed to query databases: " ++ msg⟩, none, [op])
    | .scanFail msg => (⟨true, "Failed to scan database name: " ++ msg⟩, none, [op])
    | .iterFail msg => (⟨true, "Row iteration error: " ++ msg⟩, none, [op])
    | .ok names =>
      let databases := names.map DatabaseInfo.mk
      let text := "Found " ++ toString databases.length ++ " databases:\n" ++
        concatAll (databases.map (fun d => "- " ++ d.name ++ "\n"))
      (⟨false, text⟩, some (.databases databases), [op])

/-- The parameterized query text of `ListTables`. -/
def listTablesSQL : String :=
  "\n\t\tSELECT TABLE_NAME, TABLE_TYPE, TABLE_SCHEMA\n\t\tFROM information_schema.TABLES\n\t\tWHERE TABLE_SCHEMA = ?\n\t"

/-- `ListTables`. -/
def ListTables (st : Option Conn) (args : ListTablesParams)
    (drv : RowsDriver TableInfo) :
    CallToolResult × Option Payload × List DBOp :=
  match st with
  | none => (notConnectedResult, none, [])
  | some _ =>
    let op := DBOp.query listTablesSQL [args.database]
    match drv with
    | .queryFail msg => (⟨true, "Failed to query tables: " ++ msg⟩, none, [op])
    | .scanFail msg => (⟨true, "Failed to scan table info: " ++ msg⟩, none, [op])
    | .iterFail msg => (⟨true, "Row iteration error: " ++ msg⟩, none, [op])
    | .ok tables =>
      let text := "Found " ++ toString tables.length ++ " tables in database '" ++
        args.database ++ "':\n" ++
        concatAll (tables.map (fun t => "- " ++ t.tableName ++ " (" ++ t.tableType ++ ")\n"))
      (⟨false, text⟩, some (.tables tables), [op])

/-- The parameterized query text of `DescribeTable`. -/
def describeTableSQL : String :=
  "\n\t\tSELECT COLUMN_NAME, DATA_TYPE, IS_NULLABLE, COLUMN_DEFAULT, EXTRA\n\t\tFROM information_schema.COLUMNS\n\t\tWHERE TABLE_SCHEMA = ? AND TABLE_NAME = ?\n\t\tORDER BY ORDINAL_POSITION\n\t"

/-- One `%-20s %-15s %-10s %-15s %s\n` line of the `DescribeTable` display. -/
def fiveColLine (c1 c2 c3 c4 c5 : String) : String :=
  padTo c1 20 ++ " " ++ padTo c2 15 ++ " " ++ padTo c3 10 ++ " " ++
  padTo c4 15 ++ " " ++ c5 ++ "\n"

/-- `DescribeTable`. -/
def DescribeTable (st : Option Conn) (args : DescribeTableParams)
    (drv : RowsDriver ColumnInfo) :
    CallToolResult × Option Payload × List DBOp :=
  match st with
  | none => (notConnectedResult, none, [])
  | some _ =>
    let op := DBOp.query describeTableSQL [args.database, args.table]
    match drv with
    | .queryFail msg => (⟨true, "Failed to query table columns: " ++ msg⟩, none, [op])
    | .scanFail msg => (⟨true, "Failed to scan column info: " ++ msg⟩, none, [op])
    | .iterFail msg => (⟨true, "Row iteration error: " ++ msg⟩, none, [op])
    | .ok columns =>
      let text := "Table '" ++ args.database ++ "." ++ args.table ++ "' has " ++
        toString columns.length ++ " columns:\n\n" ++
        fiveColLine "Column" "Type" "Nullable" "Default" "Extra" ++
        String.mk (List.replicate 80 '-') ++ "\n" ++
        concatAll (columns.map (fun col =>
          fiveColLine col.columnName col.dataType col.isNullable
            (col.columnDefault.getD "NULL") col.extra))
      (⟨false, text⟩, some (.columns columns), [op])

/-- The `Query executed successfully. Returned %d rows:\n\n` summary line. -/
def selectHeader (n : Nat) : String :=
  "Query executed successfully. Returned " ++ toString n ++ " rows:\n\n"

/-- Display text of the read path: summary line, then (only when at least one
row came back) the padded header line, a dashed rule of length
`len(columns)*23`, and one padded line per row. -/
def selectText (cols : List String) (results : List RowMap) : String :=
  selectHeader results.length ++
  (if results.length > 0 then
    joinSep " | " (cols.map (fun c => padTo c 20)) ++ "\n" ++
    String.mk (List.replicate (cols.length * 23) '-') ++ "\n" ++
    concatAll (results.map (fun r => joinSep " | " (cols.map (displayCell r)) ++ "\n"))
  else "")

/-- `executeSelectQuery` given the driver's response. -/
def executeSelectQuery (drv : SelectDriver) :
    CallToolResult × Option SelectPayload :=
  match drv with
  | .queryFail msg => (⟨true, "Failed to execute query: " ++ msg⟩, none)
  | .columnsFail msg => (⟨true, "Failed to get columns: " ++ msg⟩, none)
  | .scanFail msg => (⟨true, "Failed to scan row: " ++ msg⟩, none)
  | .iterFail msg => (⟨true, "Row iteration error: " ++ msg⟩, none)
  | .ok cols rawRows =>
    let results := rawRows.map (buildRow cols)
    (⟨false, selectText cols results⟩, some ⟨results, results.length, cols⟩)

/-- `executeModifyQuery` given the driver's response: exec failure and
rows-affected failure are hard errors; last-insert-id failure is replaced by
the sentinel `-1`, which also suppresses the display line. -/
def executeModifyQuery (d : ExecDriver) :
    CallToolResult × Option ModifyPayload :=
  match d.execRes with
  | .error msg => (⟨true, "Failed to execute query: " ++ msg⟩, none)
  | .ok _ =>
    match d.rowsAffectedRes with
    | .error msg => (⟨true, "Failed to get rows affected: " ++ msg⟩, none)
    | .ok ra =>
      let lastInsertId : Int :=
        match d.lastInsertIdRes with
        | .error _ => -1
        | .ok i => i
      let resultText :=
        "Query executed successfully.\nRows affected: " ++ toString ra ++
        (if lastInsertId ≠ -1 then "\nLast insert ID: " ++ toString lastInsertId else "")
      (⟨false, resultText⟩, some ⟨ra, lastInsertId⟩)

/-- The classifier local `isSelect` of `ExecuteQuery`: uppercase the
(already trimmed) query and test the four read-statement keywords as
prefixes. -/
def isSelectClassifier (query : String) : Bool :=
  let upperQuery := toUpperStr query
  leadsList "SELECT".data upperQuery.data ||
  leadsList "SHOW".data upperQuery.data ||
  leadsList "DESCRIBE".data upperQuery.data ||
  leadsList "EXPLAIN".data upperQuery.data

/-- `ExecuteQuery`: nil-handle gate, emptiness gate, then the prefix
classifier routing to the read or the mutating path. The trace records the
single database call the chosen path issues. -/
def ExecuteQuery (st : Option Conn) (args : ExecuteQueryParams)
    (sdrv : SelectDriver) (mdrv : ExecDriver) :
    CallToolResult × Option Payload × List DBOp :=
  match st with
  | none => (notConnectedResult, none, [])
  | some _ =>
    let query := trimSpace args.query
    if query = "" then
      (⟨true, "Query cannot be empty"⟩, none, [])
    else
      if isSelectClassifier query then
        let r := executeSelectQuery sdrv
        (r.1, r.2.map Payload.select, [DBOp.query query []])
      else
        let r := executeModifyQuery mdrv
        (r.1, r.2.map Payload.modify, [DBOp.exec query])

/-- The spec's classification condition, stated in its own words: the
uppercased trimmed query starts with SELECT, SHOW, DESCRIBE or EXPLAIN. -/
def specReadClass (u : String) : Bool :=
  leadsList "SELECT".data u.data || leadsList "SHOW".data u.data ||
  leadsList "DESCRIBE".data u.data || leadsList "EXPLAIN".data u.data

/-- One GitHub release asset (`name`, `browser_download_url`). -/
structure ReleaseAsset where
  name : String
  browserDownloadURL : String
deriving DecidableEq, Repr

/-- Decoded release metadata (`tag_name`, `assets`). -/
structure GitHubRelease where
  tagName : String
  assets : List ReleaseAsset
deriving DecidableEq, Repr

/-- Outcome of the release-metadata fetch at the top of `updateSelf`. -/
inductive FetchResult where
  | netError (msg : String)
  | httpStatus (code : Nat)
  | decodeError (msg : String)
  | ok (release : GitHubRelease)
deriving DecidableEq, Repr

/-- What `updateSelf` decides to do after the fetch, before any file-system
work: fail, report up-to-date and return nil, or download the selected
asset URL. -/
inductive UpdateAction where
  | fatal (msg : String)
  | upToDate (msg : String)
  | download (url : String)
deriving DecidableEq, Repr

/-- Does the action proceed to a download (and hence to any file write)? -/
def UpdateAction.requestsDownload : UpdateAction → Bool
  | .download _ => true
  | _ => false

/-- Is the action a fatal error (non-zero process exit)? -/
def UpdateAction.isFatal : UpdateAction → Bool
  | .fatal _ => true
  | _ => false

/-- OS-name normalization of `updateSelf`. -/
def normalizeOS (s : String) : String :=
  if s = "darwin" then "Darwin"
  else if s = "linux" then "Linux"
  else if s = "windows" then "Windows"
  else s

/-- Architecture normalization of `updateSelf`. -/
def normalizeArch (s : String) : String :=
  if s = "amd64" then "x86_64" else s

/-- The asset-selection loop: the first asset whose name contains the
expected fragment sets `downloadURL`; otherwise it stays `""`. -/
def selectAssetURL (assets : List ReleaseAsset) (expected : String) : String :=
  match assets.find? (fun a => hasRun expected.data a.name.data) with
  | some a => a.browserDownloadURL
  | none => ""

/-- `updateSelf` from the fetch through the asset choice (the pure decision
part preceding any download or file-system effect). `ver` is the build's
embedded `version` variable. -/
def updateCheck (fetch : FetchResult) (goos goarch ver : String) : UpdateAction :=
  match fetch with
  | .netError msg => .fatal ("failed to check for updates: " ++ msg)
  | .httpStatus code => .fatal ("failed to get release info: HTTP " ++ toString code)
  | .decodeError msg => .fatal ("failed to parse release info: " ++ msg)
  | .ok release =>
    if release.tagName = "v" ++ ver then
      .upToDate ("Already up to date (version " ++ ver ++ ")")
    else
      let osName := normalizeOS goos
      let archName := normalizeArch goarch
      let expectedName := "mysql-mcp_" ++ osName ++ "_" ++ archName
      let url := selectAssetURL release.assets expectedName
      if url = "" then
        .fatal ("no compatible release found for " ++ osName ++ " " ++ archName)
      else .download url

/-- `filepath.Base` for slash-separated paths. -/
def baseName (p : String) : String :=
  if p = "" then "."
  else
    let l := dropTrailing (fun c => c = '/') p.data
    if l = [] then "/"
    else String.mk (dropTrailing (fun c => c ≠ '/') l.reverse).reverse

/-- One tar archive entry: path, type flag and file bytes. `tar.TypeReg`
is the byte '0' (48). -/
structure TarEntry where
  name : String
  typeflag : Nat
  content : List Nat
deriving DecidableEq, Repr

/-- The entry filter of `extractBinary`'s tar loop. -/
def isBinaryEntry (e : TarEntry) : Bool :=
  leadsList "mysql-mcp".data (baseName e.name).data && e.typeflag == 48

/-- Result of `gzip.NewReader` on the download stream.

`gzip.NewReader` wraps the stream in an internal buffered reader and reads
the 10-byte gzip header through it before returning. When the header is
invalid or the stream is shorter than 10 bytes, it returns an error — but
the bytes drawn from the stream by that buffered probe (at least
`min 10 length`, up to the whole first buffered chunk) are gone: the `failed`
constructor records how many bytes the probe consumed. On success the
decompressed stream is read as a tar archive: `ok` carries its entries, and
`tarError` a prefix of entries followed by a `tarReader.Next()` failure. -/
inductive GzipProbe where
  | failed (consumed : Nat)
  | tarError (prefixEntries : List TarEntry) (msg : String)
  | ok (entries : List TarEntry)
deriving DecidableEq, Repr

/-- `extractBinary`: on gzip failure, copy what is left of the stream
(`body.drop consumed` — NOT the full body); on gzip success, copy the first
regular tar entry whose base name starts with `mysql-mcp`, or fail. The
`.ok` value is the byte content written to the destination file. -/
def extractBinary (body : List Nat) : GzipProbe → Except String (List Nat)
  | .failed consumed => .ok (body.drop consumed)
  | .tarError pre msg =>
    match pre.find? isBinaryEntry with
    | some e => .ok e.content
    | none => .error msg
  | .ok entries =>
    match entries.find? isBinaryEntry with
    | some e => .ok e.content
    | none => .error "binary not found in archive"

/-- A trivial read-path driver response, used to instantiate theorems at
concrete inputs. -/
def sdrv0 : SelectDriver := .ok [] []

/-- A trivial mutating-path driver response, used to instantiate theorems at
concrete inputs. -/
def mdrv0 : ExecDriver := ⟨.ok (), .ok 0, .ok 0⟩

/-- A concrete release record whose tag matches build version `1.0.0`. -/
def rel0 : GitHubRelease := ⟨"v1.0.0", []⟩

theorem strData_append (a b : String) : (a ++ b).data = a.data ++ b.data := rfl

theorem leadsList_append_self (l b : List Char) : leadsList l (l ++ b) = true := by
  induction l with
  | nil => rfl
  | cons c cs ih => simp [leadsList, ih]

theorem hasRun_of_leads (pat l : List Char) (h : leadsList pat l = true) :
    hasRun pat l = true := by
  cases l with
  | nil =>
    cases pat with
    | nil => rfl
    | cons p ps => simp [leadsList] at h
  | cons c cs => simp [hasRun, h]

theorem hasRun_append_left (pat a l : List Char) (h : hasRun pat l = true) :
    hasRun pat (a ++ l) = true := by
  induction a with
  | nil => simpa using h
  | cons c cs ih => simp [hasRun, ih]

theorem leadsList_append_right (pat l b : List Char) (h : leadsList pat l = true) :
    leadsList pat (l ++ b) = true := by
  induction pat generalizing l with
  | nil => rfl
  | cons p ps ih =>
    cases l with
    | nil => simp [leadsList] at h
    | cons c cs =>
      simp [leadsList] at h ⊢
      exact ⟨h.1, ih cs h.2⟩

theorem hasRun_append_right (pat l b : List Char) (h : hasRun pat l = true) :
    hasRun pat (l ++ b) = true := by
  induction l with
  | nil =>
    simp [hasRun, List.isEmpty_iff] at h
    subst h
    exact hasRun_of_leads _ _ (by cases b <;> rfl)
  | cons c cs ih =>
    simp only [hasRun, Bool.or_eq_true] at h
    rcases h with h | h
    · exact hasRun_of_leads _ _ (leadsList_append_right _ _ _ h)
    · simp only [List.cons_append, hasRun, Bool.or_eq_true]
      exact Or.inr (ih h)

theorem strContains_append_left (t s pat : String) (h : containsStr s pat) :
    containsStr (t ++ s) pat := by
  unfold containsStr at h ⊢
  rw [strData_append]
  exact hasRun_append_left _ _ _ h

theorem strContains_append_right (s t pat : String) (h : containsStr s pat) :
    containsStr (s ++ t) pat := by
  unfold containsStr at h ⊢
  rw [strData_append]
  exact hasRun_append_right _ _ _ h

theorem containsStr_self_append (s t : String) : containsStr (s ++ t) s := by
  unfold containsStr
  rw [strData_append]
  exact hasRun_of_leads _ _ (leadsList_append_self _ _)

theorem containsStr_joinSep (sep : String) {x : String} {l : List String}
    (pat : String) (hx : x ∈ l) (h : containsStr x pat) :
    containsStr (joinSep sep l) pat := by
  induction l with
  | nil => cases hx
  | cons a as ih =>
    cases as with
    | nil =>
      rw [List.mem_singleton.mp hx] at h
      simpa [joinSep] using h
    | cons b bs =>
      rcases List.mem_cons.mp hx with rfl | hmem
      · rw [joinSep]
        exact strContains_append_right _ _ _ (strContains_append_right _ _ _ h)
      · rw [joinSep]
        exact strContains_append_left _ _ _ (ih hmem)

theorem containsStr_concatAll {x : String} {l : List String} (pat : String)
    (hx : x ∈ l) (h : containsStr x pat) : containsStr (concatAll l) pat := by
  induction l with
  | nil => cases hx
  | cons a as ih =>
    rcases List.mem_cons.mp hx with rfl | hmem
    · rw [concatAll]
      exact strContains_append_right _ _ _ h
    · rw [concatAll]
      exact strContains_append_left _ _ _ (ih hmem)

theorem mapSet_of_absent (m : RowMap) (k : String) (v : Value)
    (h : m.any (fun p => p.1 == k) = false) : mapSet m k v = m ++ [(k, v)] := by
  simp [mapSet, h]

theorem foldl_mapSet_append (pairs : List (String × Value)) :
    ∀ m : RowMap, (pairs.map Prod.fst).Nodup →
    (∀ p ∈ m, ∀ q ∈ pairs, p.1 ≠ q.1) →
    pairs.foldl (fun m cv => mapSet m cv.1 (normalizeValue cv.2)) m =
      m ++ pairs.map (fun cv => (cv.1, normalizeValue cv.2)) := by
  induction pairs with
  | nil => intro m _ _; simp
  | cons hd tl ih =>
    intro m hnd hdisj
    rw [List.map_cons] at hnd
    have hnd' := List.nodup_cons.mp hnd
    have habs : m.any (fun p => p.1 == hd.1) = false := by
      rw [List.any_eq_false]
      intro p hp
      simpa using hdisj p hp hd (List.mem_cons_self _ _)
    rw [List.foldl_cons, mapSet_of_absent _ _ _ habs, ih]
    · simp
    · exact hnd'.2
    · intro p hp q hq
      rcases List.mem_append.mp hp with h1 | h2
      · exact hdisj p h1 q (List.mem_cons_of_mem _ hq)
      · rcases List.mem_singleton.mp h2 with rfl
        intro he
        have hq1 : q.1 ∈ tl.map Prod.fst := List.mem_map_of_mem Prod.fst hq
        rw [← he] at hq1
        exact hnd'.1 hq1

theorem buildRow_eq_zipMap (cols : List String) (vals : List Value)
    (hnd : cols.Nodup) (hlen : vals.length = cols.length) :
    buildRow cols vals = (cols.zip vals).map (fun cv => (cv.1, normalizeValue cv.2)) := by
  unfold buildRow
  rw [foldl_mapSet_append]
  · simp
  · rw [List.map_fst_zip _ _ (le_of_eq hlen.symm)]
    exact hnd
  · intro p hp
    simp at hp

theorem lookup_zipMap (cols : List String) :
    ∀ (vals : List Value) (j : Nat), cols.Nodup → vals.length = cols.length →
    j < cols.length →
    ((cols.zip vals).map (fun cv => (cv.1, normalizeValue cv.2))).lookup (cols.getD j "") =
      some (normalizeValue (vals.getD j .null)) := by
  induction cols with
  | nil => intro vals j _ _ hj; cases hj
  | cons c cs ih =>
    intro vals j hnd hlen hj
    cases vals with
    | nil => simp at hlen
    | cons v vs =>
      have hnd' := List.nodup_cons.mp hnd
      cases j with
      | zero => simp [List.lookup]
      | succ j' =>
        have hj' : j' < cs.length := by
          simpa using Nat.lt_of_succ_lt_succ hj
        have hmem : cs.getD j' "" ∈ cs := by
          rw [List.getD_eq_getElem _ _ hj']
          exact List.getElem_mem _
        have hne : ((c :: cs).getD (j' + 1) "" == c) = false := by
          simp only [List.getD_cons_succ]
          rw [beq_eq_false_iff_ne]
          intro he
          exact hnd'.1 (he ▸ hmem)
        rw [List.zip_cons_cons, List.map_cons, List.lookup_cons]
        simp only [List.getD_cons_succ] at hne ⊢
        rw [hne]
        simp only [List.getD_cons_succ]
        exact ih vs j' hnd'.2 (by simpa using hlen) hj'

theorem buildRow_lookup (cols : List String) (vals : List Value) (j : Nat)
    (hnd : cols.Nodup) (hlen : vals.length = cols.length) (hj : j < cols.length) :
    (buildRow cols vals).lookup (cols.getD j "") =
      some (normalizeValue (vals.getD j .null)) := by
  rw [buildRow_eq_zipMap cols vals hnd hlen]
  exact lookup_zipMap cols vals j hnd hlen hj

/-- C1: while no connection is stored (`db` is nil), each of
`list_databases`, `list_tables`, `describe_table` and `execute_query`
returns the fixed not-connected error result with no structured payload and
issues no database operation; `connect` alone does not consult the stored
handle (its result is the same whatever is stored) and, on a successful
open and ping, proceeds to store the new handle. -/
theorem c1_nil_handle_gate :
    (∀ drv : RowsDriver String,
      ListDatabases none drv = (notConnectedResult, none, [])) ∧
    (∀ (args : ListTablesParams) (drv : RowsDriver TableInfo),
      ListTables none args drv = (notConnectedResult, none, [])) ∧
    (∀ (args : DescribeTableParams) (drv : RowsDriver ColumnInfo),
      DescribeTable none args drv = (notConnectedResult, none, [])) ∧
    (∀ (args : ExecuteQueryParams) (sdrv : SelectDriver) (mdrv : ExecDriver),
      ExecuteQuery none args sdrv mdrv = (notConnectedResult, none, [])) ∧
    (∀ (st : Option Conn) (drv : ConnectDriver),
      (Connect st drv).1 = (Connect none drv).1) ∧
    (∀ (st : Option Conn) (c : Conn),
      Connect st (.ok c) =
        (⟨false, "Successfully connected to MySQL database"⟩, none, some c)) := by
  refine ⟨fun _ => rfl, fun _ _ => rfl, fun _ _ => rfl, fun _ _ _ => rfl, ?_, fun _ _ => rfl⟩
  intro st drv
  cases drv <;> rfl

/-- C7: a `connect` call that fails at `sql.Open` or at `Ping` returns an
error result with no payload and leaves the stored handle exactly as it
was; only the fully successful branch replaces the handle. -/
theorem c7_connect_failure_keeps_handle (st : Option Conn) :
    (∀ msg : String, Connect st (.openFail msg) =
      (⟨true, "Failed to open database: " ++ msg⟩, none, st)) ∧
    (∀ (c : Conn) (msg : String), Connect st (.pingFail c msg) =
      (⟨true, "Failed to ping database: " ++ msg⟩, none, st)) ∧
    (∀ c : Conn, Connect st (.ok c) =
      (⟨false, "Successfully connected to MySQL database"⟩, none, some c)) :=
  ⟨fun _ => rfl, fun _ _ => rfl, fun _ => rfl⟩

/-- C5 (counterexample): with a connection stored, `execute_query("")` does
return an error result without payload, but its message is
`"Query cannot be empty"` (capital Q), not the claimed
`"query cannot be empty"`. -/
theorem c5_counterexample :
    (ExecuteQuery (some 0) ⟨""⟩ sdrv0 mdrv0).1.isError = true ∧
    (ExecuteQuery (some 0) ⟨""⟩ sdrv0 mdrv0).1.text = "Query cannot be empty" ∧
    (ExecuteQuery (some 0) ⟨""⟩ sdrv0 mdrv0).1.text ≠ "query cannot be empty" := by
  refine ⟨rfl, rfl, ?_⟩
  decide

/-- C5 (amended): with a connection stored, every query that trims to the
empty string (in particular `""` and `"   "`) yields the error result
`"Query cannot be empty"` with no structured payload and no database
operation. -/
theorem c5_empty_query (conn : Conn) (q : String)
    (sdrv : SelectDriver) (mdrv : ExecDriver) (h : trimSpace q = "") :
    ExecuteQuery (some conn) ⟨q⟩ sdrv mdrv =
      (⟨true, "Query cannot be empty"⟩, none, []) := by
  simp [ExecuteQuery, h]

theorem c5_empty_query_witness :
    ExecuteQuery (some 0) ⟨"   "⟩ sdrv0 mdrv0 =
      (⟨true, "Query cannot be empty"⟩, none, []) :=
  c5_empty_query 0 "   " sdrv0 mdrv0 (by decide)

/-- C9: the nil-handle check of `execute_query` precedes the emptiness
check: with no stored connection every call — whatever the query string —
returns the not-connected result with no payload and no database operation,
and in that state the text is never the empty-query message. -/
theorem c9_gate_order :
    (∀ (q : String) (sdrv : SelectDriver) (mdrv : ExecDriver),
      ExecuteQuery none ⟨q⟩ sdrv mdrv = (notConnectedResult, none, [])) ∧
    (∀ (q : String) (sdrv : SelectDriver) (mdrv : ExecDriver),
      (ExecuteQuery none ⟨q⟩ sdrv mdrv).1.text ≠ "Query cannot be empty") := by
  refine ⟨fun _ _ _ => rfl, ?_⟩
  intro q sdrv mdrv h
  have : notConnectedResult.text = "Query cannot be empty" := h
  simp [notConnectedResult] at this

theorem c9_gate_order_witness :
    ExecuteQuery none ⟨""⟩ sdrv0 mdrv0 = (notConnectedResult, none, []) ∧
    (ExecuteQuery none ⟨"   "⟩ sdrv0 mdrv0).1.text ≠ "Query cannot be empty" :=
  ⟨c9_gate_order.1 "" sdrv0 mdrv0, c9_gate_order.2 "   " sdrv0 mdrv0⟩

/-- C8: when the fetched release tag is exactly `"v" ++ version`, the
updater reports being up to date, requests no download (hence touches no
file) and terminates without a fatal error. -/
theorem c8_up_to_date (release : GitHubRelease) (goos goarch ver : String)
    (h : release.tagName = "v" ++ ver) :
    updateCheck (.ok release) goos goarch ver =
      .upToDate ("Already up to date (version " ++ ver ++ ")") ∧
    (updateCheck (.ok release) goos goarch ver).requestsDownload = false ∧
    (updateCheck (.ok release) goos goarch ver).isFatal = false := by
  have hu : updateCheck (.ok release) goos goarch ver =
      .upToDate ("Already up to date (version " ++ ver ++ ")") := by
    simp [updateCheck, h]
  refine ⟨hu, ?_, ?_⟩ <;> rw [hu] <;> rfl

theorem c8_up_to_date_witness :
    updateCheck (.ok rel0) "linux" "amd64" "1.0.0" =
      .upToDate ("Already up to date (version " ++ "1.0.0" ++ ")") ∧
    (updateCheck (.ok rel0) "linux" "amd64" "1.0.0").requestsDownload = false ∧
    (updateCheck (.ok rel0) "linux" "amd64" "1.0.0").isFatal = false :=
  c8_up_to_date rel0 "linux" "amd64" "1.0.0" (by decide)

/-- C10: a read-path result with zero rows displays only the summary line
(no header line, no dashed rule) while the payload still reports
`rowCount = 0` and the full column list. -/
theorem c10_zero_rows (cols : List String) :
    (executeSelectQuery (.ok cols [])).1 =
      ⟨false, "Query executed successfully. Returned 0 rows:\n\n"⟩ ∧
    (executeSelectQuery (.ok cols [])).2 = some ⟨[], 0, cols⟩ := by
  constructor
  · show (⟨false, selectText cols []⟩ : CallToolResult) = _
    have : selectText cols [] = "Query executed successfully. Returned 0 rows:\n\n" := by
      simp [selectText, selectHeader]
      decide
    rw [this]
  · rfl

/-- C6 (code_bug): `extractBinary` on a stream that is not gzipped writes
only the bytes left after `gzip.NewReader`'s buffered header probe, not the
full body. On the 1-byte body `[77]` (`"M"`, not gzip magic) the probe
consumes the whole body (`min 10 length = 1` byte) before failing, and the
destination file ends up empty instead of equal to the body. -/
theorem c6_nongzip_copy_drops_probed_prefix :
    extractBinary [77] (.failed 1) = .ok [] ∧
    extractBinary [77] (.failed 1) ≠ .ok [77] ∧
    min 10 ([77] : List Nat).length = 1 := by
  refine ⟨rfl, ?_, rfl⟩
  intro h
  simp [extractBinary] at h

/-- C4 (counterexample): when `LastInsertId()` succeeds with the value −1,
the payload records −1 but the display text contains no "Last insert ID"
line — the code suppresses the line based on the sentinel value, not on
whether the fetch succeeded, contradicting the claim's "if it succeeds with
id I ... the display text includes it". -/
theorem c4_counterexample :
    (executeModifyQuery ⟨.ok (), .ok 0, .ok (-1)⟩).2 =
      some ⟨0, -1⟩ ∧
    (executeModifyQuery ⟨.ok (), .ok 0, .ok (-1)⟩).1.text =
      "Query executed successfully.\nRows affected: 0" ∧
    ¬ containsStr (executeModifyQuery ⟨.ok (), .ok 0, .ok (-1)⟩).1.text
      "Last insert ID" := by
  refine ⟨by decide, by decide, by decide⟩

/-- C4 (amended): for a mutating execution whose `ExecContext` succeeds:
a `RowsAffected()` failure is a hard error result with no payload; otherwise
the payload's `rowsAffected` is the driver's value; a `LastInsertId()`
failure yields `lastInsertId = -1` in the payload and a display text without
the "Last insert ID" line; a success with id `I ≠ -1` yields
`lastInsertId = I` and the display line; a success with `I = -1` is
indistinguishable from failure (payload −1, no display line). -/
theorem c4_mutate_path :
    (∀ (msg : String) (liRes : Except String Int),
      executeModifyQuery ⟨.ok (), .error msg, liRes⟩ =
        (⟨true, "Failed to get rows affected: " ++ msg⟩, none)) ∧
    (∀ (ra : Int) (liRes : Except String Int) (p : ModifyPayload),
      (executeModifyQuery ⟨.ok (), .ok ra, liRes⟩).2 = some p →
        p.rowsAffected = ra) ∧
    (∀ (ra : Int) (msg : String),
      executeModifyQuery ⟨.ok (), .ok ra, .error msg⟩ =
        (⟨false, "Query executed successfully.\nRows affected: " ++ toString ra⟩,
          some ⟨ra, -1⟩)) ∧
    (∀ ra i : Int, i ≠ -1 →
      executeModifyQuery ⟨.ok (), .ok ra, .ok i⟩ =
        (⟨false, "Query executed successfully.\nRows affected: " ++ toString ra ++
          ("\nLast insert ID: " ++ toString i)⟩, some ⟨ra, i⟩)) ∧
    (∀ ra : Int,
      executeModifyQuery ⟨.ok (), .ok ra, .ok (-1)⟩ =
        (⟨false, "Query executed successfully.\nRows affected: " ++ toString ra⟩,
          some ⟨ra, -1⟩)) := by
  refine ⟨fun msg liRes => rfl, ?_, ?_, ?_, ?_⟩
  · intro ra liRes p hp
    cases liRes <;> simp [executeModifyQuery] at hp <;> rw [← hp]
  · intro ra msg
    simp [executeModifyQuery]
  · intro ra i hi
    simp [executeModifyQuery, hi]
  · intro ra
    simp [executeModifyQuery]

theorem c4_mutate_path_witness :
    executeModifyQuery ⟨.ok (), .ok 3, .ok 7⟩ =
      (⟨false, "Query executed successfully.\nRows affected: " ++ toString (3 : Int) ++
        ("\nLast insert ID: " ++ toString (7 : Int))⟩, some ⟨3, 7⟩) ∧
    (⟨3, 7⟩ : ModifyPayload).rowsAffected = 3 :=
  ⟨c4_mutate_path.2.2.2.1 3 7 (by decide),
    c4_mutate_path.2.1 3 (.ok 7) ⟨3, 7⟩ (by decide)⟩

/-- C2: with a connection stored and a query that does not trim to empty,
`execute_query` issues a read-path query exactly when the uppercased trimmed
string starts with SELECT, SHOW, DESCRIBE or EXPLAIN (the spec's condition
`specReadClass`), and a mutating exec otherwise; the six example queries are
routed accordingly — `WITH ... SELECT` lands on the mutating path. -/
theorem c2_classifier :
    (∀ (conn : Conn) (q : String) (sdrv : SelectDriver) (mdrv : ExecDriver),
      trimSpace q ≠ "" →
      ((ExecuteQuery (some conn) ⟨q⟩ sdrv mdrv).2.2 =
          [DBOp.query (trimSpace q) []] ↔
        specReadClass (toUpperStr (trimSpace q)) = true) ∧
      ((ExecuteQuery (some conn) ⟨q⟩ sdrv mdrv).2.2 =
          [DBOp.exec (trimSpace q)] ↔
        specReadClass (toUpperStr (trimSpace q)) = false)) ∧
    (ExecuteQuery (some 0) ⟨"select 1"⟩ sdrv0 mdrv0).2.2 =
      [DBOp.query "select 1" []] ∧
    (ExecuteQuery (some 0) ⟨"SHOW TABLES"⟩ sdrv0 mdrv0).2.2 =
      [DBOp.query "SHOW TABLES" []] ∧
    (ExecuteQuery (some 0) ⟨"explain select 1"⟩ sdrv0 mdrv0).2.2 =
      [DBOp.query "explain select 1" []] ∧
    (ExecuteQuery (some 0) ⟨"UPDATE t SET x=1"⟩ sdrv0 mdrv0).2.2 =
      [DBOp.exec "UPDATE t SET x=1"] ∧
    (ExecuteQuery (some 0) ⟨"INSERT INTO t VALUES (1)"⟩ sdrv0 mdrv0).2.2 =
      [DBOp.exec "INSERT INTO t VALUES (1)"] ∧
    (ExecuteQuery (some 0) ⟨"WITH cte AS (SELECT 1) SELECT * FROM cte"⟩ sdrv0 mdrv0).2.2 =
      [DBOp.exec "WITH cte AS (SELECT 1) SELECT * FROM cte"] := by
  refine ⟨?_, by decide, by decide, by decide, by decide, by decide, by decide⟩
  intro conn q sdrv mdrv h
  have he : specReadClass (toUpperStr (trimSpace q)) = isSelectClassifier (trimSpace q) := rfl
  rw [he]
  by_cases hs : isSelectClassifier (trimSpace q) = true
  · constructor
    · simp [ExecuteQuery, h, hs]
    · simp [ExecuteQuery, h, hs]
  · rw [Bool.not_eq_true] at hs
    constructor
    · simp [ExecuteQuery, h, hs]
    · simp [ExecuteQuery, h, hs]

theorem c2_classifier_witness :
    ((ExecuteQuery (some 0) ⟨"select 1"⟩ sdrv0 mdrv0).2.2 =
        [DBOp.query (trimSpace "select 1") []] ↔
      specReadClass (toUpperStr (trimSpace "select 1")) = true) ∧
    ((ExecuteQuery (some 0) ⟨"select 1"⟩ sdrv0 mdrv0).2.2 =
        [DBOp.exec (trimSpace "select 1")] ↔
      specReadClass (toUpperStr (trimSpace "select 1")) = false) :=
  c2_classifier.1 0 "select 1" sdrv0 mdrv0 (by decide)

/-- C3: for a read-path result set of N rows and K (distinct) columns, the
payload has `rowCount = N`, the K-element column list, and N row mappings in
which each cell is the normalized scanned value — nulls stay the null
sentinel and byte sequences become strings — and any null cell makes the
literal text `NULL` appear in the display text. -/
theorem c3_read_projection (cols : List String) (rawRows : List (List Value))
    (hnd : cols.Nodup) (hlen : ∀ r ∈ rawRows, r.length = cols.length) :
    (executeSelectQuery (.ok cols rawRows)).1.isError = false ∧
    (∃ p : SelectPayload, (executeSelectQuery (.ok cols rawRows)).2 = some p ∧
      p.rowCount = rawRows.length ∧
      p.columns = cols ∧
      p.columns.length = cols.length ∧
      p.rows.length = rawRows.length ∧
      (∀ i j : Nat, i < rawRows.length → j < cols.length →
        (p.rows.getD i []).lookup (cols.getD j "") =
          some (normalizeValue ((rawRows.getD i []).getD j .null)))) ∧
    (∀ s : String, normalizeValue (.bytes s) = .str s) ∧
    normalizeValue .null = .null ∧
    (∀ i j : Nat, i < rawRows.length → j < cols.length →
      (rawRows.getD i []).getD j .null = .null →
      containsStr (executeSelectQuery (.ok cols rawRows)).1.text "NULL") := by
  have hrowD : ∀ i : Nat, i < rawRows.length →
      (rawRows.map (buildRow cols)).getD i [] = buildRow cols (rawRows.getD i []) := by
    intro i hi
    have hi' : i < (rawRows.map (buildRow cols)).length := by simpa using hi
    rw [List.getD_eq_getElem _ _ hi', List.getElem_map, List.getD_eq_getElem _ _ hi]
  have hmemD : ∀ i : Nat, i < rawRows.length → rawRows.getD i [] ∈ rawRows := by
    intro i hi
    rw [List.getD_eq_getElem _ _ hi]
    exact List.getElem_mem _
  refine ⟨rfl,
    ⟨⟨rawRows.map (buildRow cols), (rawRows.map (buildRow cols)).length, cols⟩,
      rfl, by simp, rfl, rfl, by simp, ?_⟩, fun s => rfl, rfl, ?_⟩
  · intro i j hi hj
    rw [hrowD i hi]
    exact buildRow_lookup cols (rawRows.getD i []) j hnd (hlen _ (hmemD i hi)) hj
  · intro i j hi hj hnull
    have hlook : (buildRow cols (rawRows.getD i [])).lookup (cols.getD j "") =
        some Value.null := by
      rw [buildRow_lookup cols (rawRows.getD i []) j hnd (hlen _ (hmemD i hi)) hj, hnull]
      rfl
    have hcell : displayCell (buildRow cols (rawRows.getD i [])) (cols.getD j "") =
        "NULL" ++ String.mk (List.replicate 16 ' ') := by
      unfold displayCell
      rw [hlook]
      rfl
    have hcolmem : cols.getD j "" ∈ cols := by
      rw [List.getD_eq_getElem _ _ hj]
      exact List.getElem_mem _
    have hrmem : buildRow cols (rawRows.getD i []) ∈ rawRows.map (buildRow cols) :=
      List.mem_map_of_mem _ (hmemD i hi)
    have hpos : (rawRows.map (buildRow cols)).length > 0 := by
      have : i < (rawRows.map (buildRow cols)).length := by simpa using hi
      omega
    show containsStr (selectText cols (rawRows.map (buildRow cols))) "NULL"
    unfold selectText
    rw [if_pos hpos]
    apply strContains_append_left
    apply strContains_append_left
    apply containsStr_concatAll (x := joinSep " | "
      (cols.map (displayCell (buildRow cols (rawRows.getD i [])))) ++ "\n")
    · exact List.mem_map_of_mem _ hrmem
    · apply strContains_append_right
      apply containsStr_joinSep _ _
        (List.mem_map_of_mem (displayCell (buildRow cols (rawRows.getD i []))) hcolmem)
      rw [hcell]
      exact containsStr_self_append _ _

theorem c3_read_projection_witness :
    (executeSelectQuery (.ok ["a", "b"] [[Value.null, Value.bytes "x"]])).1.isError = false ∧
    containsStr
      (executeSelectQuery (.ok ["a", "b"] [[Value.null, Value.bytes "x"]])).1.text "NULL" :=
  ⟨(c3_read_projection ["a", "b"] [[Value.null, Value.bytes "x"]]
      (by decide) (by decide)).1,
    (c3_read_projection ["a", "b"] [[Value.null, Value.bytes "x"]]
      (by decide) (by decide)).2.2.2.2 0 0 (by decide) (by decide) (by decide)⟩
